import Mathlib

/-!
# Verification of the product-group / revenue prediction service (`src/app.py`)

A shallow embedding of the Flask request handlers `predict_group`,
`predict_revenue` and `predict_all` from `src/app.py`.

Modelling decisions:

* A JSON request body is a finite association list of named numeric fields
  (`Payload`); the spec documents all request fields as numeric.  An absent
  or empty body is the empty list (the source runs `request.get_json() or {}`).
* The helper module `utils.py` (functions `prepare_features_from_json`,
  `prepare_regression_features_from_json`, `signed_expm1`) and the business
  tables of `business_interpretation.py` are part of the repository but are
  not in the sources given; they are modelled from the spec as components of
  an `MLOracle` parameter, together with the opaque pre-trained models.
* Exceptions raised by feature preparation or inference are `Except.error`
  values carrying the Python exception text `str(e)`.
* Every call a handler makes on a loaded model is recorded in a trace of
  `ModelCall`s, so that read-only-ness of the model registry is a statement
  about traces.
* Python's currency interpolation `f"${v:,.2f}"` is embedded as
  `formatCurrency`: round to cents (round-half-even, as Python's `format`
  does), group the integer digits by thousands with commas, print two cent
  digits.
-/

/-- A JSON object of named numeric fields, in insertion order. -/
def Payload := List (String × ℚ)

instance : DecidableEq Payload := by
  unfold Payload
  infer_instance

/-- `k in data` for a JSON object: the key occurs in the association list. -/
def hasKey (data : Payload) (k : String) : Bool :=
  data.any (fun p => p.1 = k)

/-- `data.get(k)`: first value bound to `k`, if any. -/
def getKey (data : Payload) (k : String) : Option ℚ :=
  (data.find? (fun p => p.1 = k)).map (fun p => p.2)

/-- JSON values occurring in the handlers' responses. -/
inductive JVal where
  /-- a string value -/
  | s (v : String)
  /-- an integer (a cluster id) -/
  | i (v : Int)
  /-- a possibly-null string, as produced by `dict.get` -/
  | opt (v : Option String)
  /-- an echoed request payload -/
  | payload (v : List (String × ℚ))
  /-- a string-to-string object (a business-interpretation entry) -/
  | strDict (v : List (String × String))
  /-- a list of strings (the `"Models"` pair) -/
  | strList (v : List String)
  /-- the `debug` object: raw regression inputs, scaled inputs, prediction -/
  | debugInfo (raw : List (String × Option ℚ)) (scaled : List ℚ) (pred : ℚ)
  deriving DecidableEq

/-- An HTTP response: status code plus a JSON object body. -/
structure Response where
  status : Nat
  body : List (String × JVal)
  deriving DecidableEq

/-- `jsonify({"error": msg}), 400` -/
def err400 (msg : String) : Response := ⟨400, [("error", JVal.s msg)]⟩

/-- `jsonify({"error": msg}), 500` -/
def err500 (msg : String) : Response := ⟨500, [("error", JVal.s msg)]⟩

/-- `jsonify(obj)` (Flask's default 200 status) -/
def ok200 (b : List (String × JVal)) : Response := ⟨200, b⟩

/-- Look a key up in a response body. -/
def bodyGet (r : Response) (k : String) : Option JVal :=
  (r.body.find? (fun p => p.1 = k)).map (fun p => p.2)

/-- Whether a response body mentions a key at all. -/
def bodyHas (r : Response) (k : String) : Bool :=
  r.body.any (fun p => p.1 = k)

/-- Python's `repr` of a list of strings, as interpolated by
`f"Missing fields: {missing}"`. -/
def pyListRepr (l : List String) : String :=
  "[" ++ String.intercalate ", " (l.map (fun s => "'" ++ s ++ "'")) ++ "]"

/-! ## Currency formatting: the embedding of `f"${v:,.2f}"` -/

/-- The decimal digit character for `d % 10`. -/
def digitChar (d : Nat) : Char :=
  match d % 10 with
  | 0 => '0' | 1 => '1' | 2 => '2' | 3 => '3' | 4 => '4'
  | 5 => '5' | 6 => '6' | 7 => '7' | 8 => '8' | _ => '9'

/-- Little-endian decimal digits, with explicit fuel so the kernel reduces it. -/
def digitsLEAux : Nat → Nat → List Nat
  | 0, _ => []
  | _ + 1, 0 => []
  | fuel + 1, n + 1 => ((n + 1) % 10) :: digitsLEAux fuel ((n + 1) / 10)

/-- Little-endian decimal digits of `n`; `[0]` for zero. -/
def digitsLE (n : Nat) : List Nat :=
  if n = 0 then [0] else digitsLEAux (n + 1) n

/-- Split a little-endian digit list into thousands groups (least significant
group first). -/
def chunk3 {α : Type} : List α → List (List α)
  | [] => []
  | a :: b :: c :: rest => [a, b, c] :: chunk3 rest
  | rest => [rest]

/-- Render big-endian digit groups, separated by commas. -/
def renderGroupsBE : List (List Char) → List Char
  | [] => []
  | [g] => g
  | g :: rest => g ++ ',' :: renderGroupsBE rest

/-- The big-endian thousands groups of `n`, most significant first. -/
def groupsBE (n : Nat) : List (List Char) :=
  ((chunk3 (digitsLE n)).map (fun g => (g.map digitChar).reverse)).reverse

/-- The comma-grouped decimal rendering of a natural number, as Python's
`format(n, ',d')` produces. -/
def intPartChars (n : Nat) : List Char :=
  renderGroupsBE (groupsBE n)

/-- Round `q` (in currency units) to integer cents, half to even — the
rounding Python's fixed-point `format` applies. -/
def centsOf (q : ℚ) : Int :=
  let a := q.num * 100
  let b := (q.den : Int)
  let n := Int.fdiv a b
  let r := a - n * b
  if 2 * r < b then n
  else if b < 2 * r then n + 1
  else if n % 2 = 0 then n else n + 1

/-- The embedding of Python's `f"${v:,.2f}"`: dollar sign, minus sign for
negative amounts, comma-grouped integer part, period, two cent digits. -/
def formatCurrency (q : ℚ) : String :=
  let c := centsOf q
  let a := c.natAbs
  String.mk ('$' :: ((if c < 0 then ['-'] else []) ++ intPartChars (a / 100)
    ++ '.' :: [digitChar (a / 10 % 10), digitChar (a % 10)]))

/-! ## The syntactic shape `$X,XXX.XX` of a currency string -/

/-- Is `c` a decimal digit character? -/
def isDigitCh (c : Char) : Bool :=
  decide ('0' ≤ c) && decide (c ≤ '9')

/-- After the leading digit group: zero or more `,ddd` groups. -/
def restGroupsOk : List Char → Bool
  | [] => true
  | ',' :: a :: b :: c :: rest => isDigitCh a && isDigitCh b && isDigitCh c && restGroupsOk rest
  | _ => false

/-- A comma-grouped integer part: one to three digits, then `,ddd` groups. -/
def intPartOk (l : List Char) : Bool :=
  let k := (l.takeWhile isDigitCh).length
  decide (1 ≤ k) && decide (k ≤ 3) && restGroupsOk (l.drop k)

/-- The shape `$X,XXX.XX`: a dollar sign, an optional minus sign, a
comma-grouped integer part, a period, and exactly two digits. -/
def isCurrencyString (s : String) : Bool :=
  match s.data with
  | '$' :: rest =>
    let rest2 := if rest.head? = some '-' then rest.tail else rest
    match rest2.reverse with
    | d2 :: d1 :: '.' :: revInt => isDigitCh d1 && isDigitCh d2 && intPartOk revInt.reverse
    | _ => false
  | _ => false

/-! ## Models, oracles and traces -/

/-- The keys of the `MODELS` dict loaded at startup. -/
def modelNames : List String := ["kmeans", "dbscan", "random_forest", "xgboost"]

/-- A call a handler makes on a loaded model object. -/
inductive ModelCall where
  /-- `model.predict(X)` on a clustering model -/
  | predictCluster (name : String)
  /-- `model.fit_predict(X)` on a clustering model -/
  | fitPredictCluster (name : String)
  /-- `model.predict(X)` on a regression model -/
  | predictRev (name : String)
  deriving DecidableEq

/-- Whether the call mutates the model object it is made on.  In the
scikit-learn API that the loaded models implement, `predict` is a pure read
of the fitted parameters, while `fit_predict` re-fits the estimator on the
argument data in place before returning labels. -/
def ModelCall.mutatesModel : ModelCall → Bool
  | .fitPredictCluster _ => true
  | _ => false

/-- The environment a request executes in: the feature-preparation helpers,
the four opaque pre-trained models, the inverse log transform, and the two
business-interpretation tables.

Modelled from the spec: `utils.py` and `business_interpretation.py` are part
of the repository but are not among the given sources.  Per the spec,
feature preparation is a pure single-pass transform from named JSON fields
to an ordered, scaled numeric vector (it may raise, hence `Except`);
`signed_expm1` is the numeric inverse log transform, a total function on the
numeric domain; the business tables are read-only static maps from integer
cluster ids to string dictionaries.  Model inference results are opaque and
may raise. -/
structure MLOracle where
  /-- `utils.prepare_features_from_json` (clustering features) -/
  prepFeatures : Payload → Except String (List ℚ)
  /-- `utils.prepare_regression_features_from_json` (regression features) -/
  prepRegFeatures : Payload → Except String (List ℚ)
  /-- `int(model.predict(X)[0])` on the named clustering model -/
  predictCluster : String → List ℚ → Except String Int
  /-- `int(model.fit_predict(X)[0])` on the named model; raises (an
  `AttributeError`) when the named model has no `fit_predict` method -/
  fitPredictCluster : String → List ℚ → Except String Int
  /-- `float(model.predict(X)[0])` on the named regression model -/
  predictRev : String → List ℚ → Except String ℚ
  /-- `utils.signed_expm1`, the inverse log transform -/
  signedExpm1 : ℚ → ℚ
  /-- `business_interpretation.KMEANS_BUSINESS` -/
  kmeansBusiness : Int → Option (List (String × String))
  /-- `business_interpretation.DBSCAN_BUSINESS` -/
  dbscanBusiness : Int → Option (List (String × String))

/-- `dict.get(k)` on a business-interpretation entry. -/
def dictGet (d : List (String × String)) (k : String) : Option String :=
  (d.find? (fun p => p.1 = k)).map (fun p => p.2)

/-! ## The request handlers -/

/-- The required fields of `/predict_group`, in source order. -/
def groupRequired : List String :=
  ["NetQuantity", "NetRevenue", "NumTransactions", "NumUniqueCustomers"]

/-- The required fields of `/predict_revenue`, in source order. -/
def revRequired : List String :=
  ["NetRevenue", "NetRevenue_LastMonth", "NetRevenue_MA3", "Month", "ProductFrequency"]

/-- The required fields of `/predict_all`, in source order. -/
def allRequired : List String :=
  ["NetRevenue", "NetQuantity", "NumTransactions", "NumUniqueCustomers",
   "NetRevenue_LastMonth", "NetRevenue_MA3", "Month", "ProductFrequency"]

/-- `[k for k in required if k not in data]` -/
def missingOf (required : List String) (data : Payload) : List String :=
  required.filter (fun k => ¬ hasKey data k)

/-- The fallback business entry of `predict_group`. -/
def groupFallback : List (String × String) :=
  [("cluster_name", "unknown product cluster"), ("description", "")]

/-- The fallback business entry of `predict_all`. -/
def allFallback : List (String × String) :=
  [("cluster_name", "unknown product cluster"), ("description", ""), ("recommended_action", "")]

/-- The `POST /predict_group` handler of `src/app.py`, returning the
response together with the trace of model calls made. -/
def predict_group (O : MLOracle) (modelArg : Option String) (data : Payload) :
    Response × List ModelCall :=
  let choice := modelArg.getD "kmeans"
  if choice ∈ modelNames then
    let missing := missingOf groupRequired data
    if missing.isEmpty then
      match O.prepFeatures data with
      | .error e => (err500 ("Failed to prepare/predict: " ++ e), [])
      | .ok xs =>
        if choice = "kmeans" then
          match O.predictCluster "kmeans" xs with
          | .error e =>
            (err500 ("Failed to prepare/predict: " ++ e), [ModelCall.predictCluster "kmeans"])
          | .ok cluster =>
            let business := (O.kmeansBusiness cluster).getD groupFallback
            (ok200 [("model_used", JVal.s "KMeans"),
                    ("predicted_group", JVal.i cluster),
                    ("group_info", JVal.strDict business),
                    ("input_data", JVal.payload data)],
             [ModelCall.predictCluster "kmeans"])
        else
          match O.fitPredictCluster choice xs with
          | .error e =>
            (err500 ("Failed to prepare/predict: " ++ e), [ModelCall.fitPredictCluster choice])
          | .ok cluster =>
            let business := (O.dbscanBusiness cluster).getD groupFallback
            (ok200 [("model_used", JVal.s "DBSCAN"),
                    ("predicted_group", JVal.i cluster),
                    ("group_info", JVal.strDict business),
                    ("input_data", JVal.payload data)],
             [ModelCall.fitPredictCluster choice])
    else
      (err400 ("Missing fields: " ++ pyListRepr missing), [])
  else
    (err400 "Invalid model. Use model='kmeans' or model='dbscan'.", [])

/-- The `POST /predict_revenue` handler of `src/app.py`. -/
def predict_revenue (O : MLOracle) (modelArg : Option String) (data : Payload) :
    Response × List ModelCall :=
  let choice := modelArg.getD "xgboost"
  if choice = "random_forest" ∨ choice = "xgboost" then
    let missing := missingOf revRequired data
    if missing.isEmpty then
      match O.prepRegFeatures data with
      | .error e => (err500 ("Failed to prepare/predict: " ++ e), [])
      | .ok xs =>
        match O.predictRev choice xs with
        | .error e =>
          (err500 ("Failed to prepare/predict: " ++ e), [ModelCall.predictRev choice])
        | .ok raw =>
          let pred := O.signedExpm1 raw
          (ok200 [("model_used", JVal.s (if choice = "xgboost" then "XGBoost" else "Random Forest")),
                  ("input_data", JVal.payload data),
                  ("next_month_revenue", JVal.s (formatCurrency pred))],
           [ModelCall.predictRev choice])
    else
      (err400 ("Missing fields: " ++ pyListRepr missing), [])
  else
    (err400 "Invalid model. Use model='xgboost' or model='random_forest'.", [])

/-- The success-path response object of `predict_all`, before the optional
debug attachment. -/
def allBaseBody (groupInfo : List (String × String)) (groupModelName revModelName : String)
    (predFormatted : String) : List (String × JVal) :=
  [("product_group", JVal.opt (dictGet groupInfo "cluster_name")),
   ("business", JVal.opt (dictGet groupInfo "description")),
   ("recommended_action", JVal.opt (dictGet groupInfo "recommended_action")),
   ("next_month_revenue", JVal.s predFormatted),
   ("Models", JVal.strList [groupModelName, revModelName]),
   ("Product Group", JVal.opt (dictGet groupInfo "cluster_name")),
   ("Description", JVal.opt (dictGet groupInfo "description")),
   ("Recommendation", JVal.opt (dictGet groupInfo "recommended_action")),
   ("Next Month Revenue", JVal.s predFormatted),
   ("cluster_name", JVal.opt (dictGet groupInfo "cluster_name")),
   ("description", JVal.opt (dictGet groupInfo "description")),
   ("next_month_revenue_formatted", JVal.s predFormatted)]

/-- The `debug` query values that switch the debug attachment on
(`request.args.get('debug') in ('1', 'true', 'True')`). -/
def debugOn (debugArg : Option String) : Bool :=
  debugArg = some "1" ∨ debugArg = some "true" ∨ debugArg = some "True"

/-- The `POST /predict_all` handler of `src/app.py`. -/
def predict_all (O : MLOracle) (groupArg revArg debugArg : Option String) (data : Payload) :
    Response × List ModelCall :=
  let groupChoice := groupArg.getD "kmeans"
  let revChoice := revArg.getD "xgboost"
  if groupChoice = "kmeans" ∨ groupChoice = "dbscan" then
    if revChoice = "random_forest" ∨ revChoice = "xgboost" then
      let missing := missingOf allRequired data
      if missing.isEmpty then
        match O.prepFeatures data with
        | .error e => (err500 ("Failed to prepare/predict: " ++ e), [])
        | .ok xc =>
          let groupStep : Except String (Int × List (String × String) × String) × ModelCall :=
            if groupChoice = "kmeans" then
              (match O.predictCluster "kmeans" xc with
               | .error e => .error e
               | .ok g => .ok (g, (O.kmeansBusiness g).getD allFallback, "KMeans"),
               ModelCall.predictCluster "kmeans")
            else
              (match O.fitPredictCluster "dbscan" xc with
               | .error e => .error e
               | .ok g => .ok (g, (O.dbscanBusiness g).getD allFallback, "DBSCAN"),
               ModelCall.fitPredictCluster "dbscan")
          match groupStep.1 with
          | .error e => (err500 ("Failed to prepare/predict: " ++ e), [groupStep.2])
          | .ok (_, groupInfo, groupModelName) =>
            match O.prepRegFeatures data with
            | .error e => (err500 ("Failed to prepare/predict: " ++ e), [groupStep.2])
            | .ok xr =>
              match O.predictRev revChoice xr with
              | .error e =>
                (err500 ("Failed to prepare/predict: " ++ e),
                 [groupStep.2, ModelCall.predictRev revChoice])
              | .ok raw =>
                let pred := O.signedExpm1 raw
                let predFormatted := formatCurrency pred
                let modelName := if revChoice = "xgboost" then "XGBoost" else "Random Forest"
                let base := allBaseBody groupInfo groupModelName modelName predFormatted
                let resp :=
                  if debugOn debugArg then
                    match O.prepRegFeatures data with
                    | .ok scaled =>
                      base ++ [("debug",
                        JVal.debugInfo (revRequired.map (fun f => (f, getKey data f))) scaled pred)]
                    | .error e => base ++ [("debug_error", JVal.s e)]
                  else base
                (ok200 resp, [groupStep.2, ModelCall.predictRev revChoice])
      else
        (err400 ("Missing fields: " ++ pyListRepr missing), [])
    else
      (err400 "Invalid rev_model. Use rev_model='xgboost' or 'random_forest'.", [])
  else
    (err400 "Invalid group_model. Use group_model='kmeans' or 'dbscan'.", [])

/-! ## Concrete oracles and payloads used to exercise the handlers -/

/-- A concrete environment: preparation succeeds, kmeans clusters to `0`,
dbscan (the only model with `fit_predict`) clusters to `-1`, regression
predicts `1234`, the inverse log transform is instantiated with the
identity, and the business tables are empty. -/
def testOracle : MLOracle where
  prepFeatures _ := .ok [1, 2, 3, 4]
  prepRegFeatures _ := .ok [5, 6, 7, 8, 9]
  predictCluster _ _ := .ok 0
  fitPredictCluster name _ :=
    if name = "dbscan" then .ok (-1)
    else .error "'RandomForestRegressor' object has no attribute 'fit_predict'"
  predictRev _ _ := .ok 1234
  signedExpm1 q := q
  kmeansBusiness _ := none
  dbscanBusiness _ := none

/-- A concrete environment whose feature preparation raises. -/
def prepFailOracle : MLOracle where
  prepFeatures _ := .error "could not convert field to float"
  prepRegFeatures _ := .error "could not convert field to float"
  predictCluster _ _ := .ok 0
  fitPredictCluster _ _ := .ok 0
  predictRev _ _ := .ok 0
  signedExpm1 q := q
  kmeansBusiness _ := none
  dbscanBusiness _ := none

/-- A complete `/predict_group` payload. -/
def groupPayload : Payload :=
  [("NetQuantity", 5), ("NetRevenue", 100), ("NumTransactions", 10),
   ("NumUniqueCustomers", 7)]

/-- The `/predict_revenue` payload of the spec's worked example. -/
def revPayload : Payload :=
  [("NetRevenue", 100), ("NetRevenue_LastMonth", 90), ("NetRevenue_MA3", 95),
   ("Month", 3), ("ProductFrequency", 12)]

/-- A complete `/predict_all` payload. -/
def allPayload : Payload :=
  [("NetRevenue", 100), ("NetQuantity", 5), ("NumTransactions", 10),
   ("NumUniqueCustomers", 7), ("NetRevenue_LastMonth", 90), ("NetRevenue_MA3", 95),
   ("Month", 3), ("ProductFrequency", 12)]

/-! ## C8: absent selector parameters fall back to fixed defaults -/

/-- C8: when the model-selector query parameters are absent, the handlers
behave exactly as with the defaults `model=kmeans` (grouping),
`model=xgboost` (revenue) and `group_model=kmeans`, `rev_model=xgboost`
(combined); in particular the request is not rejected for lacking them. -/
theorem selector_defaults (O : MLOracle) (dq : Option String) (data : Payload) :
    predict_group O none data = predict_group O (some "kmeans") data
    ∧ predict_revenue O none data = predict_revenue O (some "xgboost") data
    ∧ predict_all O none none dq data = predict_all O (some "kmeans") (some "xgboost") dq data :=
  ⟨rfl, rfl, rfl⟩

/-! ## C2: the `/predict_group` selector check accepts the regressor names -/

/-- C2: the claim fails on the code.  `predict_group` validates the selector
with `choice not in MODELS`, and `MODELS` also holds the two regressors, so
`model=random_forest` passes validation, the handler proceeds into the
inference block (calling `fit_predict` on the regressor, which raises, so a
500 is produced) instead of returning the documented 400 rejection. -/
theorem group_selector_accepts_regressor :
    (predict_group testOracle (some "random_forest") groupPayload).1 =
      err500 "Failed to prepare/predict: 'RandomForestRegressor' object has no attribute 'fit_predict'"
    ∧ (predict_group testOracle (some "random_forest") groupPayload).1.status ≠ 400
    ∧ (predict_group testOracle (some "random_forest") groupPayload).2 =
      [ModelCall.fitPredictCluster "random_forest"]
    ∧ "random_forest" ∈ modelNames ∧ "xgboost" ∈ modelNames := by
  refine ⟨by decide, by decide, by decide, by decide, by decide⟩

/-! ## C3: the registry is not read-only — dbscan requests re-fit the model -/

/-- C3 counterexample: a served (status 200) `/predict_group?model=dbscan`
request makes a mutating model call — `fit_predict` re-fits the dbscan
estimator in place — so the loaded models are not all read-only after
startup. -/
theorem dbscan_request_mutates_model :
    ((predict_group testOracle (some "dbscan") groupPayload).2.any ModelCall.mutatesModel = true)
    ∧ (predict_group testOracle (some "dbscan") groupPayload).1.status = 200 := by
  refine ⟨by decide, by decide⟩

/-! ## C7: debug is attached for `'true'` and `'True'` too, not only `'1'` -/

/-- C7 counterexample: a successful `/predict_all` request with
`debug=true` — a value other than `'1'` — still gets the debug attachment,
so debug values are not attached exactly when `debug=1`. -/
theorem debug_attached_for_true_string :
    bodyHas (predict_all testOracle none none (some "true") allPayload).1 "debug" = true
    ∧ (predict_all testOracle none none (some "true") allPayload).1.status = 200
    ∧ some "true" ≠ some "1" := by
  refine ⟨by decide, by decide, by decide⟩

/-! ## The currency formatter always produces the `$X,XXX.XX` shape -/

theorem isDigitCh_digitChar (d : Nat) : isDigitCh (digitChar d) = true := by
  unfold digitChar
  split <;> decide

theorem takeWhile_digits_append (g t : List Char) (hg : ∀ c ∈ g, isDigitCh c = true) :
    (g ++ ',' :: t).takeWhile isDigitCh = g ∧ (g ++ ',' :: t).drop g.length = ',' :: t := by
  induction g with
  | nil => simp [List.takeWhile_cons, show isDigitCh ',' = false from by decide]
  | cons a g ih =>
    have ha : isDigitCh a = true := hg a (by simp)
    have ih2 := ih (fun c hc => hg c (by simp [hc]))
    refine ⟨?_, ?_⟩
    · simp [List.takeWhile_cons, ha, ih2.1]
    · simp only [List.length_cons, List.cons_append, List.drop_succ_cons]
      exact ih2.2

theorem takeWhile_all_digits (l : List Char) (h : ∀ c ∈ l, isDigitCh c = true) :
    l.takeWhile isDigitCh = l := by
  induction l with
  | nil => rfl
  | cons a l ih =>
    simp [List.takeWhile_cons, h a (by simp), ih (fun c hc => h c (by simp [hc]))]

theorem length_three_destruct {α : Type} : ∀ (g : List α), g.length = 3 → ∃ a b c, g = [a, b, c]
  | [], h => by simp at h
  | [a], h => by simp at h
  | [a, b], h => by simp at h
  | [a, b, c], _ => ⟨a, b, c, rfl⟩
  | a :: b :: c :: d :: t, h => by simp at h

theorem restGroupsOk_render : ∀ (rest : List (List Char)),
    (∀ g ∈ rest, g.length = 3 ∧ ∀ c ∈ g, isDigitCh c = true) → rest ≠ [] →
    restGroupsOk (',' :: renderGroupsBE rest) = true
  | [], _, hne => absurd rfl hne
  | [g], h, _ => by
    obtain ⟨hlen, hdig⟩ := h g (by simp)
    obtain ⟨a, b, c, rfl⟩ := length_three_destruct g hlen
    simp [renderGroupsBE, restGroupsOk, hdig a (by simp), hdig b (by simp), hdig c (by simp)]
  | g :: g2 :: rest, h, _ => by
    obtain ⟨hlen, hdig⟩ := h g (by simp)
    obtain ⟨a, b, c, rfl⟩ := length_three_destruct _ hlen
    have ih := restGroupsOk_render (g2 :: rest) (fun x hx => h x (by simp [hx])) (by simp)
    simp only [renderGroupsBE]
    simp [restGroupsOk, hdig a (by simp), hdig b (by simp), hdig c (by simp), ih]

theorem intPartOk_render : ∀ (bs : List (List Char)),
    (∀ g ∈ bs, g ≠ [] ∧ g.length ≤ 3 ∧ ∀ c ∈ g, isDigitCh c = true) →
    (∀ g ∈ bs.tail, g.length = 3) → bs ≠ [] →
    intPartOk (renderGroupsBE bs) = true
  | [], _, _, hne => absurd rfl hne
  | [g], h, _, _ => by
    obtain ⟨hne, hlen, hdig⟩ := h g (by simp)
    have h1 : 1 ≤ g.length := by
      cases g with
      | nil => exact absurd rfl hne
      | cons a t => simp
    have htw : List.takeWhile isDigitCh g = g := takeWhile_all_digits g hdig
    simp only [renderGroupsBE, intPartOk, htw, List.drop_length]
    simp [h1, hlen, restGroupsOk]
  | g :: g2 :: rest, h, htail, _ => by
    obtain ⟨hne, hlen, hdig⟩ := h g (by simp)
    have h1 : 1 ≤ g.length := by
      cases g with
      | nil => exact absurd rfl hne
      | cons a t => simp
    have hrender : renderGroupsBE (g :: g2 :: rest) = g ++ ',' :: renderGroupsBE (g2 :: rest) := rfl
    have htw := takeWhile_digits_append g (renderGroupsBE (g2 :: rest)) hdig
    have hrest : restGroupsOk (',' :: renderGroupsBE (g2 :: rest)) = true := by
      refine restGroupsOk_render (g2 :: rest) ?_ (by simp)
      intro x hx
      exact ⟨htail x (by simpa using hx), (h x (by simp [hx])).2.2⟩
    simp only [intPartOk, hrender, htw.1, htw.2]
    simp [h1, hlen, hrest]

theorem chunk3_props {α : Type} : ∀ (l : List α), l ≠ [] →
    chunk3 l ≠ []
    ∧ (∀ g ∈ chunk3 l, g ≠ [] ∧ g.length ≤ 3)
    ∧ (∀ g ∈ (chunk3 l).dropLast, g.length = 3)
  | [], h => absurd rfl h
  | [a], _ => by simp [chunk3]
  | [a, b], _ => by simp [chunk3]
  | a :: b :: c :: rest, _ => by
    have hc : chunk3 (a :: b :: c :: rest) = [a, b, c] :: chunk3 rest := rfl
    by_cases hr : rest = []
    · subst hr; simp [chunk3]
    · obtain ⟨h1, h2, h3⟩ := chunk3_props rest hr
      refine ⟨by simp [hc], ?_, ?_⟩
      · intro g hg
        rw [hc] at hg
        rcases List.mem_cons.mp hg with rfl | hg
        · exact ⟨by simp, by simp⟩
        · exact h2 g hg
      · intro g hg
        rw [hc, List.dropLast_cons_of_ne_nil h1] at hg
        rcases List.mem_cons.mp hg with rfl | hg
        · simp
        · exact h3 g hg

theorem digitsLE_ne_nil (n : Nat) : digitsLE n ≠ [] := by
  cases n with
  | zero => simp [digitsLE]
  | succ m => simp [digitsLE, digitsLEAux]

theorem dropLast_map_comm {α β : Type} (f : α → β) (l : List α) :
    (l.map f).dropLast = l.dropLast.map f := by
  induction l using List.reverseRecOn with
  | nil => rfl
  | append_singleton l a ih => simp

theorem tail_reverse_eq {α : Type} (l : List α) : l.reverse.tail = l.dropLast.reverse := by
  induction l using List.reverseRecOn with
  | nil => rfl
  | append_singleton l a ih => simp

theorem intPartOk_intPartChars (n : Nat) : intPartOk (intPartChars n) = true := by
  obtain ⟨h1, h2, h3⟩ := chunk3_props (digitsLE n) (digitsLE_ne_nil n)
  set M := (chunk3 (digitsLE n)).map (fun g => (g.map digitChar).reverse) with hM
  have hMne : M ≠ [] := by
    intro h
    exact h1 (List.map_eq_nil_iff.mp (hM ▸ h))
  refine intPartOk_render (groupsBE n) ?_ ?_ ?_
  · intro g hg
    rw [groupsBE, List.mem_reverse] at hg
    obtain ⟨g0, hg0, rfl⟩ := List.mem_map.mp hg
    obtain ⟨hne0, hlen0⟩ := h2 g0 hg0
    refine ⟨by simpa using hne0, by simpa using hlen0, ?_⟩
    intro ch hch
    rw [List.mem_reverse] at hch
    obtain ⟨d, _, rfl⟩ := List.mem_map.mp hch
    exact isDigitCh_digitChar d
  · intro g hg
    have : (groupsBE n).tail = (M.dropLast).reverse := by
      rw [groupsBE, ← hM, tail_reverse_eq]
    rw [this, List.mem_reverse] at hg
    have hdl : M.dropLast = ((chunk3 (digitsLE n)).dropLast).map (fun g => (g.map digitChar).reverse) := by
      rw [hM, dropLast_map_comm]
    rw [hdl] at hg
    obtain ⟨g0, hg0, rfl⟩ := List.mem_map.mp hg
    simpa using h3 g0 hg0
  · rw [groupsBE, ← hM]
    simpa using hMne

theorem intPartOk_head_digit (l : List Char) (h : intPartOk l = true) :
    ∃ ch t, l = ch :: t ∧ isDigitCh ch = true := by
  cases l with
  | nil => simp [intPartOk, List.takeWhile] at h
  | cons a t =>
    refine ⟨a, t, rfl, ?_⟩
    by_contra hd
    have hd2 : isDigitCh a = false := by
      cases hda : isDigitCh a
      · rfl
      · exact absurd hda hd
    simp [intPartOk, List.takeWhile_cons, hd2] at h

theorem isCurrencyString_shape (c : Int) :
    isCurrencyString (String.mk ('$' :: ((if c < 0 then ['-'] else []) ++ intPartChars (c.natAbs / 100)
      ++ '.' :: [digitChar (c.natAbs / 10 % 10), digitChar (c.natAbs % 10)]))) = true := by
  set m := c.natAbs / 100 with hm
  obtain ⟨ch, t, hct, hchd⟩ := intPartOk_head_digit (intPartChars m) (intPartOk_intPartChars m)
  have hne : ch ≠ '-' := by
    intro h
    rw [h] at hchd
    exact absurd hchd (by decide)
  by_cases hc : c < 0
  · simp only [isCurrencyString, hc, if_true]
    simp only [List.cons_append, List.nil_append, List.head?_cons, List.tail_cons]
    simp [List.reverse_append, intPartOk_intPartChars, isDigitCh_digitChar]
  · simp only [isCurrencyString, hc, if_false]
    simp only [List.nil_append]
    rw [hct]
    simp only [List.cons_append, List.head?_cons]
    rw [if_neg (by simp [hne])]
    rw [← List.cons_append, ← hct]
    simp [List.reverse_append, intPartOk_intPartChars, isDigitCh_digitChar]

theorem isCurrencyString_formatCurrency (q : ℚ) : isCurrencyString (formatCurrency q) = true := by
  unfold formatCurrency
  exact isCurrencyString_shape (centsOf q)

/-! ## C1 -/

/-- C1: for each of the three prediction endpoints (with a selector the
endpoint's own validation accepts, including the absent default), a body
lacking one or more required fields is answered with a 400 error whose
message lists exactly the missing required fields — all of them and no
others — and no model inference call is made. -/
theorem missing_fields_named_exactly (O : MLOracle) (mq rq gq rq2 dq : Option String)
    (data : Payload) :
    ((mq.getD "kmeans") ∈ modelNames → missingOf groupRequired data ≠ [] →
      predict_group O mq data =
        (err400 ("Missing fields: " ++ pyListRepr (missingOf groupRequired data)), []))
    ∧ ((rq.getD "xgboost" = "random_forest" ∨ rq.getD "xgboost" = "xgboost") →
        missingOf revRequired data ≠ [] →
      predict_revenue O rq data =
        (err400 ("Missing fields: " ++ pyListRepr (missingOf revRequired data)), []))
    ∧ ((gq.getD "kmeans" = "kmeans" ∨ gq.getD "kmeans" = "dbscan") →
       (rq2.getD "xgboost" = "random_forest" ∨ rq2.getD "xgboost" = "xgboost") →
        missingOf allRequired data ≠ [] →
      predict_all O gq rq2 dq data =
        (err400 ("Missing fields: " ++ pyListRepr (missingOf allRequired data)), []))
    ∧ (∀ req k, k ∈ missingOf req data ↔ k ∈ req ∧ hasKey data k = false) := by
  refine ⟨?_, ?_, ?_, ?_⟩
  · intro hsel hmiss
    have hE : (missingOf groupRequired data).isEmpty = false := by
      simp [List.isEmpty_eq_false, hmiss]
    simp [predict_group, hsel, hE]
  · intro hsel hmiss
    have hE : (missingOf revRequired data).isEmpty = false := by
      simp [List.isEmpty_eq_false, hmiss]
    simp [predict_revenue, hsel, hE]
  · intro hsel1 hsel2 hmiss
    have hE : (missingOf allRequired data).isEmpty = false := by
      simp [List.isEmpty_eq_false, hmiss]
    simp [predict_all, hsel1, hsel2, hE]
  · intro req k
    simp [missingOf, hasKey, List.mem_filter]

/-- C1 witness: an empty body to `/predict_group` (with the default
selector) is rejected with all four required fields listed and no model
call. -/
theorem missing_fields_named_exactly_witness :
    predict_group testOracle none [] =
      (err400 "Missing fields: ['NetQuantity', 'NetRevenue', 'NumTransactions', 'NumUniqueCustomers']", []) := by
  have h := (missing_fields_named_exactly testOracle none none none none none []).1
    (by decide) (by decide)
  rw [h]
  decide

/-! ## C4 -/

/-- C4: for requests that pass selector and required-field validation, an
exception raised by feature preparation or by model inference is caught and
answered with a 500 response whose body carries exactly the prefixed
exception text, at every failure site of the three endpoints. -/
theorem processing_failure_reported_500 (O : MLOracle) (mq rq gq rq2 dq : Option String)
    (data : Payload) (e : String) (xs xr : List ℚ) (g : Int) :
    ((mq.getD "kmeans") ∈ modelNames → missingOf groupRequired data = [] →
      O.prepFeatures data = .error e →
      predict_group O mq data = (err500 ("Failed to prepare/predict: " ++ e), []))
    ∧ (mq.getD "kmeans" = "kmeans" → missingOf groupRequired data = [] →
      O.prepFeatures data = .ok xs → O.predictCluster "kmeans" xs = .error e →
      predict_group O mq data =
        (err500 ("Failed to prepare/predict: " ++ e), [ModelCall.predictCluster "kmeans"]))
    ∧ ((mq.getD "kmeans") ∈ modelNames → mq.getD "kmeans" ≠ "kmeans" →
      missingOf groupRequired data = [] →
      O.prepFeatures data = .ok xs → O.fitPredictCluster (mq.getD "kmeans") xs = .error e →
      predict_group O mq data =
        (err500 ("Failed to prepare/predict: " ++ e),
         [ModelCall.fitPredictCluster (mq.getD "kmeans")]))
    ∧ ((rq.getD "xgboost" = "random_forest" ∨ rq.getD "xgboost" = "xgboost") →
      missingOf revRequired data = [] → O.prepRegFeatures data = .error e →
      predict_revenue O rq data = (err500 ("Failed to prepare/predict: " ++ e), []))
    ∧ ((rq.getD "xgboost" = "random_forest" ∨ rq.getD "xgboost" = "xgboost") →
      missingOf revRequired data = [] → O.prepRegFeatures data = .ok xs →
      O.predictRev (rq.getD "xgboost") xs = .error e →
      predict_revenue O rq data =
        (err500 ("Failed to prepare/predict: " ++ e),
         [ModelCall.predictRev (rq.getD "xgboost")]))
    ∧ ((gq.getD "kmeans" = "kmeans" ∨ gq.getD "kmeans" = "dbscan") →
      (rq2.getD "xgboost" = "random_forest" ∨ rq2.getD "xgboost" = "xgboost") →
      missingOf allRequired data = [] → O.prepFeatures data = .error e →
      predict_all O gq rq2 dq data = (err500 ("Failed to prepare/predict: " ++ e), []))
    ∧ (gq.getD "kmeans" = "kmeans" →
      (rq2.getD "xgboost" = "random_forest" ∨ rq2.getD "xgboost" = "xgboost") →
      missingOf allRequired data = [] → O.prepFeatures data = .ok xs →
      O.predictCluster "kmeans" xs = .error e →
      predict_all O gq rq2 dq data =
        (err500 ("Failed to prepare/predict: " ++ e), [ModelCall.predictCluster "kmeans"]))
    ∧ (gq.getD "kmeans" = "dbscan" →
      (rq2.getD "xgboost" = "random_forest" ∨ rq2.getD "xgboost" = "xgboost") →
      missingOf allRequired data = [] → O.prepFeatures data = .ok xs →
      O.fitPredictCluster "dbscan" xs = .error e →
      predict_all O gq rq2 dq data =
        (err500 ("Failed to prepare/predict: " ++ e), [ModelCall.fitPredictCluster "dbscan"]))
    ∧ (gq.getD "kmeans" = "kmeans" →
      (rq2.getD "xgboost" = "random_forest" ∨ rq2.getD "xgboost" = "xgboost") →
      missingOf allRequired data = [] → O.prepFeatures data = .ok xs →
      O.predictCluster "kmeans" xs = .ok g → O.prepRegFeatures data = .error e →
      predict_all O gq rq2 dq data =
        (err500 ("Failed to prepare/predict: " ++ e), [ModelCall.predictCluster "kmeans"]))
    ∧ (gq.getD "kmeans" = "kmeans" →
      (rq2.getD "xgboost" = "random_forest" ∨ rq2.getD "xgboost" = "xgboost") →
      missingOf allRequired data = [] → O.prepFeatures data = .ok xs →
      O.predictCluster "kmeans" xs = .ok g → O.prepRegFeatures data = .ok xr →
      O.predictRev (rq2.getD "xgboost") xr = .error e →
      predict_all O gq rq2 dq data =
        (err500 ("Failed to prepare/predict: " ++ e),
         [ModelCall.predictCluster "kmeans", ModelCall.predictRev (rq2.getD "xgboost")]))
    ∧ (gq.getD "kmeans" = "dbscan" →
      (rq2.getD "xgboost" = "random_forest" ∨ rq2.getD "xgboost" = "xgboost") →
      missingOf allRequired data = [] → O.prepFeatures data = .ok xs →
      O.fitPredictCluster "dbscan" xs = .ok g → O.prepRegFeatures data = .error e →
      predict_all O gq rq2 dq data =
        (err500 ("Failed to prepare/predict: " ++ e), [ModelCall.fitPredictCluster "dbscan"]))
    ∧ (gq.getD "kmeans" = "dbscan" →
      (rq2.getD "xgboost" = "random_forest" ∨ rq2.getD "xgboost" = "xgboost") →
      missingOf allRequired data = [] → O.prepFeatures data = .ok xs →
      O.fitPredictCluster "dbscan" xs = .ok g → O.prepRegFeatures data = .ok xr →
      O.predictRev (rq2.getD "xgboost") xr = .error e →
      predict_all O gq rq2 dq data =
        (err500 ("Failed to prepare/predict: " ++ e),
         [ModelCall.fitPredictCluster "dbscan", ModelCall.predictRev (rq2.getD "xgboost")])) := by
  refine ⟨?_, ?_, ?_, ?_, ?_, ?_, ?_, ?_, ?_, ?_, ?_, ?_⟩
  · intro hsel hmiss hprep
    simp [predict_group, hsel, hmiss, hprep]
  · intro hsel hmiss hprep hpred
    have hsel2 : ("kmeans" : String) ∈ modelNames := by decide
    simp [predict_group, hsel, hsel2, hmiss, hprep, hpred]
  · intro hsel hne hmiss hprep hpred
    simp [predict_group, hsel, hne, hmiss, hprep, hpred]
  · intro hsel hmiss hprep
    simp [predict_revenue, hsel, hmiss, hprep]
  · intro hsel hmiss hprep hpred
    simp [predict_revenue, hsel, hmiss, hprep, hpred]
  · intro hsel1 hsel2 hmiss hprep
    simp [predict_all, hsel1, hsel2, hmiss, hprep]
  · intro hsel1 hsel2 hmiss hprep hpred
    simp [predict_all, hsel1, hsel2, hmiss, hprep, hpred]
  · intro hsel1 hsel2 hmiss hprep hpred
    simp [predict_all, hsel1, hsel2, hmiss, hprep, hpred]
  · intro hsel1 hsel2 hmiss hprep hpred hrp
    simp [predict_all, hsel1, hsel2, hmiss, hprep, hpred, hrp]
  · intro hsel1 hsel2 hmiss hprep hpred hrp hrr
    simp [predict_all, hsel1, hsel2, hmiss, hprep, hpred, hrp, hrr]
  · intro hsel1 hsel2 hmiss hprep hpred hrp
    simp [predict_all, hsel1, hsel2, hmiss, hprep, hpred, hrp]
  · intro hsel1 hsel2 hmiss hprep hpred hrp hrr
    simp [predict_all, hsel1, hsel2, hmiss, hprep, hpred, hrp, hrr]

/-- C4 witness: with an environment whose feature preparation raises, a
fully validated `/predict_group` request gets a 500 carrying the exception
text, and no model call is made. -/
theorem processing_failure_reported_500_witness :
    predict_group prepFailOracle none groupPayload =
      (err500 "Failed to prepare/predict: could not convert field to float", []) := by
  have h := (processing_failure_reported_500 prepFailOracle none none none none none
    groupPayload "could not convert field to float" [] [] 0).1 (by decide) (by decide) rfl
  rw [h]
  decide

/-! ## C5 -/

/-- C5: for the spec's worked example — `POST /predict_revenue?model=xgboost`
with NetRevenue 100.0, NetRevenue_LastMonth 90.0, NetRevenue_MA3 95.0,
Month 3, ProductFrequency 12 — whenever feature preparation and inference
succeed, the response is a 200 whose `next_month_revenue` value is the
(inverse-log-transformed) prediction formatted by `f"${v:,.2f}"`, a string
of the currency shape `$X,XXX.XX`. -/
theorem revenue_example_currency_response (O : MLOracle) (xs : List ℚ) (r : ℚ)
    (hp : O.prepRegFeatures revPayload = .ok xs)
    (hr : O.predictRev "xgboost" xs = .ok r) :
    (predict_revenue O (some "xgboost") revPayload).1.status = 200
    ∧ bodyGet (predict_revenue O (some "xgboost") revPayload).1 "next_month_revenue" =
        some (JVal.s (formatCurrency (O.signedExpm1 r)))
    ∧ isCurrencyString (formatCurrency (O.signedExpm1 r)) = true := by
  have hmiss : missingOf revRequired revPayload = [] := by decide
  refine ⟨?_, ?_, isCurrencyString_formatCurrency _⟩
  · simp [predict_revenue, hmiss, hp, hr, ok200]
  · simp [predict_revenue, hmiss, hp, hr, bodyGet, ok200, List.find?]

/-- C5 witness: in the concrete environment, where the raw prediction is
`1234` and the transform is the identity, the example request yields a 200
whose `next_month_revenue` is the currency string `$1,234.00`. -/
theorem revenue_example_currency_response_witness :
    (predict_revenue testOracle (some "xgboost") revPayload).1.status = 200
    ∧ bodyGet (predict_revenue testOracle (some "xgboost") revPayload).1 "next_month_revenue" =
        some (JVal.s "$1,234.00")
    ∧ isCurrencyString "$1,234.00" = true := by
  have h := revenue_example_currency_response testOracle [5, 6, 7, 8, 9] 1234 rfl rfl
  refine ⟨h.1, ?_, by decide⟩
  have h2 := h.2.1
  rw [h2]
  decide

/-! ## C6 -/

/-- C6: on every successful revenue prediction of `/predict_revenue` and
`/predict_all`, the reported value is the inverse log transform
(`signed_expm1`) of the raw model output, formatted as currency — never the
raw output itself.  (`signed_expm1` is modelled from the spec as a total
numeric transform, so the source's defensive inner `try/except` around it
never fires.) -/
theorem revenue_reported_inverse_log (O : MLOracle) (rq gq rq2 dq : Option String)
    (data : Payload) (xs xc xr : List ℚ) (raw : ℚ) (g : Int) :
    ((rq.getD "xgboost" = "random_forest" ∨ rq.getD "xgboost" = "xgboost") →
      missingOf revRequired data = [] → O.prepRegFeatures data = .ok xs →
      O.predictRev (rq.getD "xgboost") xs = .ok raw →
      bodyGet (predict_revenue O rq data).1 "next_month_revenue" =
        some (JVal.s (formatCurrency (O.signedExpm1 raw))))
    ∧ (gq.getD "kmeans" = "kmeans" →
      (rq2.getD "xgboost" = "random_forest" ∨ rq2.getD "xgboost" = "xgboost") →
      missingOf allRequired data = [] → O.prepFeatures data = .ok xc →
      O.predictCluster "kmeans" xc = .ok g → O.prepRegFeatures data = .ok xr →
      O.predictRev (rq2.getD "xgboost") xr = .ok raw →
      bodyGet (predict_all O gq rq2 dq data).1 "next_month_revenue" =
        some (JVal.s (formatCurrency (O.signedExpm1 raw)))
      ∧ bodyGet (predict_all O gq rq2 dq data).1 "Next Month Revenue" =
        some (JVal.s (formatCurrency (O.signedExpm1 raw)))
      ∧ bodyGet (predict_all O gq rq2 dq data).1 "next_month_revenue_formatted" =
        some (JVal.s (formatCurrency (O.signedExpm1 raw))))
    ∧ (gq.getD "kmeans" = "dbscan" →
      (rq2.getD "xgboost" = "random_forest" ∨ rq2.getD "xgboost" = "xgboost") →
      missingOf allRequired data = [] → O.prepFeatures data = .ok xc →
      O.fitPredictCluster "dbscan" xc = .ok g → O.prepRegFeatures data = .ok xr →
      O.predictRev (rq2.getD "xgboost") xr = .ok raw →
      bodyGet (predict_all O gq rq2 dq data).1 "next_month_revenue" =
        some (JVal.s (formatCurrency (O.signedExpm1 raw)))
      ∧ bodyGet (predict_all O gq rq2 dq data).1 "Next Month Revenue" =
        some (JVal.s (formatCurrency (O.signedExpm1 raw)))
      ∧ bodyGet (predict_all O gq rq2 dq data).1 "next_month_revenue_formatted" =
        some (JVal.s (formatCurrency (O.signedExpm1 raw)))) := by
  refine ⟨?_, ?_, ?_⟩
  · intro hsel hmiss hprep hpred
    simp [predict_revenue, hsel, hmiss, hprep, hpred, bodyGet, ok200, List.find?]
  · intro hsel1 hsel2 hmiss hprep hpred hrp hrr
    by_cases hdbg : debugOn dq = true
    · refine ⟨?_, ?_, ?_⟩ <;>
        simp [predict_all, hsel1, hsel2, hmiss, hprep, hpred, hrp, hrr, hdbg,
              allBaseBody, bodyGet, ok200, List.find?]
    · have hdbg2 : debugOn dq = false := by
        cases h : debugOn dq
        · rfl
        · exact absurd h hdbg
      refine ⟨?_, ?_, ?_⟩ <;>
        simp [predict_all, hsel1, hsel2, hmiss, hprep, hpred, hrp, hrr, hdbg2,
              allBaseBody, bodyGet, ok200, List.find?]
  · intro hsel1 hsel2 hmiss hprep hpred hrp hrr
    by_cases hdbg : debugOn dq = true
    · refine ⟨?_, ?_, ?_⟩ <;>
        simp [predict_all, hsel1, hsel2, hmiss, hprep, hpred, hrp, hrr, hdbg,
              allBaseBody, bodyGet, ok200, List.find?]
    · have hdbg2 : debugOn dq = false := by
        cases h : debugOn dq
        · rfl
        · exact absurd h hdbg
      refine ⟨?_, ?_, ?_⟩ <;>
        simp [predict_all, hsel1, hsel2, hmiss, hprep, hpred, hrp, hrr, hdbg2,
              allBaseBody, bodyGet, ok200, List.find?]

/-- C6 witness: in the concrete environment (transform instantiated as the
identity) a complete `/predict_all` request reports `$1,234.00`, the
formatted transformed prediction. -/
theorem revenue_reported_inverse_log_witness :
    bodyGet (predict_all testOracle none none none allPayload).1 "next_month_revenue" =
      some (JVal.s "$1,234.00") := by
  have h := (revenue_reported_inverse_log testOracle none none none none allPayload
    [] [1, 2, 3, 4] [5, 6, 7, 8, 9] 1234 0).2.1 rfl (by decide) (by decide) rfl rfl rfl rfl
  have h2 := h.1
  rw [h2]
  decide

/-! ## C9 -/

/-- C9: a cluster id without an entry in the business-interpretation table
does not fail the request: `/predict_group` and `/predict_all` (for both
grouping models) still answer 200, with the group description falling back
to cluster name `unknown product cluster` and empty description fields. -/
theorem unknown_cluster_fallback (O : MLOracle) (mq rq2 dq : Option String) (data : Payload)
    (xs xr : List ℚ) (g : Int) (raw : ℚ) :
    (mq.getD "kmeans" = "kmeans" → missingOf groupRequired data = [] →
      O.prepFeatures data = .ok xs → O.predictCluster "kmeans" xs = .ok g →
      O.kmeansBusiness g = none →
      (predict_group O mq data).1.status = 200
      ∧ bodyGet (predict_group O mq data).1 "group_info" = some (JVal.strDict groupFallback))
    ∧ (mq.getD "kmeans" = "dbscan" → missingOf groupRequired data = [] →
      O.prepFeatures data = .ok xs → O.fitPredictCluster "dbscan" xs = .ok g →
      O.dbscanBusiness g = none →
      (predict_group O mq data).1.status = 200
      ∧ bodyGet (predict_group O mq data).1 "group_info" = some (JVal.strDict groupFallback))
    ∧ (mq.getD "kmeans" = "kmeans" →
      (rq2.getD "xgboost" = "random_forest" ∨ rq2.getD "xgboost" = "xgboost") →
      missingOf allRequired data = [] → O.prepFeatures data = .ok xs →
      O.predictCluster "kmeans" xs = .ok g → O.kmeansBusiness g = none →
      O.prepRegFeatures data = .ok xr → O.predictRev (rq2.getD "xgboost") xr = .ok raw →
      (predict_all O mq rq2 dq data).1.status = 200
      ∧ bodyGet (predict_all O mq rq2 dq data).1 "product_group" =
          some (JVal.opt (some "unknown product cluster"))
      ∧ bodyGet (predict_all O mq rq2 dq data).1 "business" = some (JVal.opt (some ""))
      ∧ bodyGet (predict_all O mq rq2 dq data).1 "recommended_action" =
          some (JVal.opt (some "")))
    ∧ (mq.getD "kmeans" = "dbscan" →
      (rq2.getD "xgboost" = "random_forest" ∨ rq2.getD "xgboost" = "xgboost") →
      missingOf allRequired data = [] → O.prepFeatures data = .ok xs →
      O.fitPredictCluster "dbscan" xs = .ok g → O.dbscanBusiness g = none →
      O.prepRegFeatures data = .ok xr → O.predictRev (rq2.getD "xgboost") xr = .ok raw →
      (predict_all O mq rq2 dq data).1.status = 200
      ∧ bodyGet (predict_all O mq rq2 dq data).1 "product_group" =
          some (JVal.opt (some "unknown product cluster"))
      ∧ bodyGet (predict_all O mq rq2 dq data).1 "business" = some (JVal.opt (some ""))
      ∧ bodyGet (predict_all O mq rq2 dq data).1 "recommended_action" =
          some (JVal.opt (some ""))) := by
  refine ⟨?_, ?_, ?_, ?_⟩
  · intro hsel hmiss hprep hpred hbiz
    have hsel2 : ("kmeans" : String) ∈ modelNames := by decide
    constructor <;>
      simp [predict_group, hsel, hsel2, hmiss, hprep, hpred, hbiz, bodyGet, ok200, List.find?]
  · intro hsel hmiss hprep hpred hbiz
    have hsel2 : ("dbscan" : String) ∈ modelNames := by decide
    constructor <;>
      simp [predict_group, hsel, hsel2, hmiss, hprep, hpred, hbiz, bodyGet, ok200, List.find?]
  · intro hsel1 hsel2 hmiss hprep hpred hbiz hrp hrr
    by_cases hdbg : debugOn dq = true
    · refine ⟨?_, ?_, ?_, ?_⟩ <;>
        simp [predict_all, hsel1, hsel2, hmiss, hprep, hpred, hbiz, hrp, hrr, hdbg,
              allBaseBody, allFallback, dictGet, bodyGet, ok200, List.find?]
    · have hdbg2 : debugOn dq = false := by
        cases h : debugOn dq
        · rfl
        · exact absurd h hdbg
      refine ⟨?_, ?_, ?_, ?_⟩ <;>
        simp [predict_all, hsel1, hsel2, hmiss, hprep, hpred, hbiz, hrp, hrr, hdbg2,
              allBaseBody, allFallback, dictGet, bodyGet, ok200, List.find?]
  · intro hsel1 hsel2 hmiss hprep hpred hbiz hrp hrr
    by_cases hdbg : debugOn dq = true
    · refine ⟨?_, ?_, ?_, ?_⟩ <;>
        simp [predict_all, hsel1, hsel2, hmiss, hprep, hpred, hbiz, hrp, hrr, hdbg,
              allBaseBody, allFallback, dictGet, bodyGet, ok200, List.find?]
    · have hdbg2 : debugOn dq = false := by
        cases h : debugOn dq
        · rfl
        · exact absurd h hdbg
      refine ⟨?_, ?_, ?_, ?_⟩ <;>
        simp [predict_all, hsel1, hsel2, hmiss, hprep, hpred, hbiz, hrp, hrr, hdbg2,
              allBaseBody, allFallback, dictGet, bodyGet, ok200, List.find?]

/-- C9 witness: in the concrete environment, whose business tables are
empty, a `/predict_group` request is served with the fallback entry. -/
theorem unknown_cluster_fallback_witness :
    (predict_group testOracle none groupPayload).1.status = 200
    ∧ bodyGet (predict_group testOracle none groupPayload).1 "group_info" =
        some (JVal.strDict groupFallback) := by
  exact (unknown_cluster_fallback testOracle none none none groupPayload
    [1, 2, 3, 4] [] 0 0).1 rfl (by decide) rfl rfl rfl

/-! ## C10 -/

/-- C10: every successful (200) response of `/predict_group` and
`/predict_revenue` echoes the submitted JSON payload back unchanged under
the `input_data` key. -/
theorem input_data_echoed (O : MLOracle) (mq rq : Option String) (data : Payload) :
    ((predict_group O mq data).1.status = 200 →
      bodyGet (predict_group O mq data).1 "input_data" = some (JVal.payload data))
    ∧ ((predict_revenue O rq data).1.status = 200 →
      bodyGet (predict_revenue O rq data).1 "input_data" = some (JVal.payload data)) := by
  constructor
  · intro h200
    by_cases hsel : (mq.getD "kmeans") ∈ modelNames
    case neg => simp [predict_group, hsel, err400] at h200
    case pos =>
      cases hE : (missingOf groupRequired data).isEmpty
      case false => simp [predict_group, hsel, hE, err400] at h200
      case true =>
        cases hprep : O.prepFeatures data with
        | error e => simp [predict_group, hsel, hE, hprep, err500] at h200
        | ok xs =>
          by_cases hk : mq.getD "kmeans" = "kmeans"
          case pos =>
            cases hpred : O.predictCluster "kmeans" xs with
            | error e => simp [predict_group, modelNames, hsel, hE, hprep, hk, hpred, err500] at h200
            | ok g =>
              simp [predict_group, modelNames, hsel, hE, hprep, hk, hpred, bodyGet, ok200, List.find?]
          case neg =>
            have hsel3 : mq.getD "kmeans" = "dbscan" ∨ mq.getD "kmeans" = "random_forest"
                ∨ mq.getD "kmeans" = "xgboost" := by
              simp [modelNames] at hsel
              rcases hsel with h | h | h | h
              · exact absurd h hk
              · exact Or.inl h
              · exact Or.inr (Or.inl h)
              · exact Or.inr (Or.inr h)
            cases hpred : O.fitPredictCluster (mq.getD "kmeans") xs with
            | error e =>
              simp [predict_group, modelNames, hsel3, hE, hprep, hk, hpred, err500] at h200
            | ok g =>
              simp [predict_group, modelNames, hsel3, hE, hprep, hk, hpred, bodyGet, ok200,
                    List.find?]
  · intro h200
    by_cases hsel : rq.getD "xgboost" = "random_forest" ∨ rq.getD "xgboost" = "xgboost"
    case neg => simp [predict_revenue, hsel, err400] at h200
    case pos =>
      cases hE : (missingOf revRequired data).isEmpty
      case false => simp [predict_revenue, hsel, hE, err400] at h200
      case true =>
        cases hprep : O.prepRegFeatures data with
        | error e => simp [predict_revenue, hsel, hE, hprep, err500] at h200
        | ok xs =>
          cases hpred : O.predictRev (rq.getD "xgboost") xs with
          | error e => simp [predict_revenue, hsel, hE, hprep, hpred, err500] at h200
          | ok raw =>
            simp [predict_revenue, hsel, hE, hprep, hpred, bodyGet, ok200, List.find?]

/-- C10 witness: the served example request echoes its payload. -/
theorem input_data_echoed_witness :
    bodyGet (predict_revenue testOracle (some "xgboost") revPayload).1 "input_data" =
      some (JVal.payload revPayload) := by
  exact (input_data_echoed testOracle none (some "xgboost") revPayload).2 (by decide)

/-! ## C3 amended theorem -/

/-- C3 as amended: the registry is read-only except on the dbscan grouping
path.  `/predict_revenue` makes no mutating model call; the only mutating
call a handler can make is `fit_predict` on its selected grouping model in
the non-kmeans branch — for `/predict_all` that model is always `dbscan`,
and for `/predict_group` it is the (non-kmeans) selected model.  The
kmeans, random_forest and xgboost models are only ever read through
`predict`. -/
theorem registry_mutation_only_fit_predict (O : MLOracle) (mq rq gq rq2 dq : Option String)
    (data : Payload) :
    (∀ c ∈ (predict_group O mq data).2, c.mutatesModel = true →
      c = ModelCall.fitPredictCluster (mq.getD "kmeans") ∧ mq.getD "kmeans" ≠ "kmeans")
    ∧ (∀ c ∈ (predict_revenue O rq data).2, c.mutatesModel = false)
    ∧ (∀ c ∈ (predict_all O gq rq2 dq data).2, c.mutatesModel = true →
      c = ModelCall.fitPredictCluster "dbscan" ∧ gq.getD "kmeans" = "dbscan") := by
  refine ⟨?_, ?_, ?_⟩
  · intro c hc hmut
    by_cases hsel : (mq.getD "kmeans") ∈ modelNames
    case neg => simp [predict_group, hsel] at hc
    case pos =>
      cases hE : (missingOf groupRequired data).isEmpty
      case false => simp [predict_group, hsel, hE] at hc
      case true =>
        cases hprep : O.prepFeatures data with
        | error e => simp [predict_group, hsel, hE, hprep] at hc
        | ok xs =>
          by_cases hk : mq.getD "kmeans" = "kmeans"
          case pos =>
            cases hpred : O.predictCluster "kmeans" xs with
            | error e =>
              simp [predict_group, modelNames, hsel, hE, hprep, hk, hpred] at hc
              rw [hc] at hmut
              exact absurd hmut (by decide)
            | ok g =>
              simp [predict_group, modelNames, hsel, hE, hprep, hk, hpred] at hc
              rw [hc] at hmut
              exact absurd hmut (by decide)
          case neg =>
            have hsel3 : mq.getD "kmeans" = "dbscan" ∨ mq.getD "kmeans" = "random_forest"
                ∨ mq.getD "kmeans" = "xgboost" := by
              simp [modelNames] at hsel
              rcases hsel with h | h | h | h
              · exact absurd h hk
              · exact Or.inl h
              · exact Or.inr (Or.inl h)
              · exact Or.inr (Or.inr h)
            cases hpred : O.fitPredictCluster (mq.getD "kmeans") xs with
            | error e =>
              simp [predict_group, modelNames, hsel3, hE, hprep, hk, hpred] at hc
              exact ⟨hc, hk⟩
            | ok g =>
              simp [predict_group, modelNames, hsel3, hE, hprep, hk, hpred] at hc
              exact ⟨hc, hk⟩
  · intro c hc
    by_cases hsel : rq.getD "xgboost" = "random_forest" ∨ rq.getD "xgboost" = "xgboost"
    case neg => simp [predict_revenue, hsel] at hc
    case pos =>
      cases hE : (missingOf revRequired data).isEmpty
      case false => simp [predict_revenue, hsel, hE] at hc
      case true =>
        cases hprep : O.prepRegFeatures data with
        | error e => simp [predict_revenue, hsel, hE, hprep] at hc
        | ok xs =>
          cases hpred : O.predictRev (rq.getD "xgboost") xs with
          | error e =>
            simp [predict_revenue, hsel, hE, hprep, hpred] at hc
            rw [hc]
            rfl
          | ok raw =>
            simp [predict_revenue, hsel, hE, hprep, hpred] at hc
            rw [hc]
            rfl
  · intro c hc hmut
    by_cases hsel1 : gq.getD "kmeans" = "kmeans" ∨ gq.getD "kmeans" = "dbscan"
    case neg => simp [predict_all, hsel1] at hc
    case pos =>
      by_cases hsel2 : rq2.getD "xgboost" = "random_forest" ∨ rq2.getD "xgboost" = "xgboost"
      case neg => simp [predict_all, hsel1, hsel2] at hc
      case pos =>
        cases hE : (missingOf allRequired data).isEmpty
        case false => simp [predict_all, hsel1, hsel2, hE] at hc
        case true =>
          cases hprep : O.prepFeatures data with
          | error e => simp [predict_all, hsel1, hsel2, hE, hprep] at hc
          | ok xc =>
            by_cases hk : gq.getD "kmeans" = "kmeans"
            case pos =>
              cases hpred : O.predictCluster "kmeans" xc with
              | error e =>
                simp [predict_all, hsel1, hsel2, hE, hprep, hk, hpred] at hc
                rw [hc] at hmut
                exact absurd hmut (by decide)
              | ok g =>
                cases hrp : O.prepRegFeatures data with
                | error e =>
                  simp [predict_all, hsel1, hsel2, hE, hprep, hk, hpred, hrp] at hc
                  rw [hc] at hmut
                  exact absurd hmut (by decide)
                | ok xr =>
                  cases hrr : O.predictRev (rq2.getD "xgboost") xr with
                  | error e =>
                    simp [predict_all, hsel1, hsel2, hE, hprep, hk, hpred, hrp, hrr] at hc
                    rcases hc with rfl | rfl <;> simp [ModelCall.mutatesModel] at hmut
                  | ok raw =>
                    simp [predict_all, hsel1, hsel2, hE, hprep, hk, hpred, hrp, hrr] at hc
                    rcases hc with rfl | rfl <;> simp [ModelCall.mutatesModel] at hmut
            case neg =>
              have hdb : gq.getD "kmeans" = "dbscan" := by
                rcases hsel1 with h | h
                · exact absurd h hk
                · exact h
              cases hpred : O.fitPredictCluster "dbscan" xc with
              | error e =>
                simp [predict_all, hsel1, hsel2, hE, hprep, hdb, hpred] at hc
                exact ⟨hc, hdb⟩
              | ok g =>
                cases hrp : O.prepRegFeatures data with
                | error e =>
                  simp [predict_all, hsel1, hsel2, hE, hprep, hdb, hpred, hrp] at hc
                  exact ⟨hc, hdb⟩
                | ok xr =>
                  cases hrr : O.predictRev (rq2.getD "xgboost") xr with
                  | error e =>
                    simp [predict_all, hsel1, hsel2, hE, hprep, hdb, hpred, hrp, hrr] at hc
                    rcases hc with rfl | rfl
                    · exact ⟨rfl, hdb⟩
                    · simp [ModelCall.mutatesModel] at hmut
                  | ok raw =>
                    simp [predict_all, hsel1, hsel2, hE, hprep, hdb, hpred, hrp, hrr] at hc
                    rcases hc with rfl | rfl
                    · exact ⟨rfl, hdb⟩
                    · simp [ModelCall.mutatesModel] at hmut

/-- C3 amended-theorem witness: `/predict_revenue` calls are non-mutating
at a concrete served request. -/
theorem registry_mutation_only_fit_predict_witness :
    ModelCall.mutatesModel (ModelCall.predictRev "xgboost") = false := by
  exact (registry_mutation_only_fit_predict testOracle none none none none none
    revPayload).2.1 (ModelCall.predictRev "xgboost") (by decide)

/-! ## C7 amended theorem -/

/-- C7 as amended: on every successful (200) `/predict_all` response, the
debug attachment is present exactly when the `debug` query parameter is
`'1'`, `'true'` or `'True'` — the code's flag set is wider than the
documented `debug=1`. -/
theorem debug_attached_iff_flag (O : MLOracle) (gq rq dq : Option String) (data : Payload)
    (h200 : (predict_all O gq rq dq data).1.status = 200) :
    bodyHas (predict_all O gq rq dq data).1 "debug" = true ↔ debugOn dq = true := by
  by_cases hsel1 : gq.getD "kmeans" = "kmeans" ∨ gq.getD "kmeans" = "dbscan"
  case neg => simp [predict_all, hsel1, err400] at h200
  case pos =>
    by_cases hsel2 : rq.getD "xgboost" = "random_forest" ∨ rq.getD "xgboost" = "xgboost"
    case neg => simp [predict_all, hsel1, hsel2, err400] at h200
    case pos =>
      cases hE : (missingOf allRequired data).isEmpty
      case false => simp [predict_all, hsel1, hsel2, hE, err400] at h200
      case true =>
        cases hprep : O.prepFeatures data with
        | error e => simp [predict_all, hsel1, hsel2, hE, hprep, err500] at h200
        | ok xc =>
          by_cases hk : gq.getD "kmeans" = "kmeans"
          case pos =>
            cases hpred : O.predictCluster "kmeans" xc with
            | error e => simp [predict_all, hsel1, hsel2, hE, hprep, hk, hpred, err500] at h200
            | ok g =>
              cases hrp : O.prepRegFeatures data with
              | error e =>
                simp [predict_all, hsel1, hsel2, hE, hprep, hk, hpred, hrp, err500] at h200
              | ok xr =>
                cases hrr : O.predictRev (rq.getD "xgboost") xr with
                | error e =>
                  simp [predict_all, hsel1, hsel2, hE, hprep, hk, hpred, hrp, hrr, err500] at h200
                | ok raw =>
                  by_cases hdbg : debugOn dq = true
                  · simp [predict_all, hsel1, hsel2, hE, hprep, hk, hpred, hrp, hrr, hdbg,
                          allBaseBody, bodyHas, ok200]
                  · have hdbg2 : debugOn dq = false := by
                      cases h : debugOn dq
                      · rfl
                      · exact absurd h hdbg
                    simp [predict_all, hsel1, hsel2, hE, hprep, hk, hpred, hrp, hrr, hdbg2,
                          allBaseBody, bodyHas, ok200]
          case neg =>
            have hdb : gq.getD "kmeans" = "dbscan" := by
              rcases hsel1 with h | h
              · exact absurd h hk
              · exact h
            cases hpred : O.fitPredictCluster "dbscan" xc with
            | error e => simp [predict_all, hsel1, hsel2, hE, hprep, hdb, hpred, err500] at h200
            | ok g =>
              cases hrp : O.prepRegFeatures data with
              | error e =>
                simp [predict_all, hsel1, hsel2, hE, hprep, hdb, hpred, hrp, err500] at h200
              | ok xr =>
                cases hrr : O.predictRev (rq.getD "xgboost") xr with
                | error e =>
                  simp [predict_all, hsel1, hsel2, hE, hprep, hdb, hpred, hrp, hrr, err500] at h200
                | ok raw =>
                  by_cases hdbg : debugOn dq = true
                  · simp [predict_all, hsel1, hsel2, hE, hprep, hdb, hpred, hrp, hrr, hdbg,
                          allBaseBody, bodyHas, ok200]
                  · have hdbg2 : debugOn dq = false := by
                      cases h : debugOn dq
                      · rfl
                      · exact absurd h hdbg
                    simp [predict_all, hsel1, hsel2, hE, hprep, hdb, hpred, hrp, hrr, hdbg2,
                          allBaseBody, bodyHas, ok200]

/-- C7 amended-theorem witness: with `debug=1` on a served request, the
debug attachment is present. -/
theorem debug_attached_iff_flag_witness :
    bodyHas (predict_all testOracle none none (some "1") allPayload).1 "debug" = true := by
  exact (debug_attached_iff_flag testOracle none none (some "1") allPayload
    (by decide)).mpr (by decide)
